import Mathlib

/-!
Shallow embedding of the py-opc Alphasense OPC driver (opc/__init__.py)
together with proofs about its frame decoding, handshake loops and
parameter validation.

Conventions used throughout:

* Python ints are modelled as Nat (byte values, bin counts) or Int
  (caller-supplied parameters that may be negative).
* Python floats are modelled by the PyFloat type below: NaN, a signed
  infinity, or a finite value; finite arithmetic is modelled exactly over
  the rationals.  Fields that are always finite (u16-derived values such
  as flow rate or the N3 sampling period) are modelled directly as
  rationals.
* Code that can raise returns Except PyErr; a Python function that can
  return None returns an Option.
* The histogram read loops always collect exactly 62 (N1, N2) or 86 (N3)
  response bytes before decoding, so the decoders take the raw frame as a
  function from Fin 62 / Fin 86 to byte values.
* Device transports are modelled as a response stream: dev i is the byte
  the device returns for the i-th transfer of the modelled operation.
-/

set_option maxRecDepth 8000

namespace PyOpc

/-- Python exception classes raised by the code paths modelled here. -/
inductive PyErr where
  | typeError : PyErr
  | valueError : PyErr
  | zeroDivision : PyErr
  | firmwareVersion : PyErr
  | userWarning : PyErr
deriving DecidableEq, Repr

/-- A Python float: NaN, a signed infinity (true means negative), or a
finite value modelled exactly as a rational. -/
inductive PyFloat where
  | nan : PyFloat
  | inf : Bool → PyFloat
  | fin : ℚ → PyFloat
deriving DecidableEq, Repr

/-- Python float multiplication: NaN propagates, infinity times zero is
NaN, infinity times a nonzero finite value keeps an infinity with the
product sign, and finite products are modelled exactly. -/
def PyFloat.mul : PyFloat → PyFloat → PyFloat
  | .nan, _ => .nan
  | _, .nan => .nan
  | .inf s, .inf t => .inf (xor s t)
  | .inf s, .fin q => if q = 0 then .nan else .inf (xor s (decide (q < 0)))
  | .fin q, .inf t => if q = 0 then .nan else .inf (xor (decide (q < 0)) t)
  | .fin a, .fin b => .fin (a * b)

/-- Division of a Python int by a Python float, as it appears in the
number-concentration conversion: dividing by zero raises
ZeroDivisionError, dividing by NaN gives NaN, dividing by an infinity
gives zero, and finite quotients are modelled exactly. -/
def pyDivNat (n : ℕ) : PyFloat → Except PyErr PyFloat
  | .nan => .ok .nan
  | .inf _ => .ok (.fin 0)
  | .fin q => if q = 0 then .error .zeroDivision else .ok (.fin ((n : ℚ) / q))

/-- Division of a Python int by a float known to be finite (the N3 flow
rate and sampling period are u16-derived): division by zero raises
ZeroDivisionError, other quotients are modelled exactly. -/
def pyDivQ (n : ℕ) (q : ℚ) : Except PyErr ℚ :=
  if q = 0 then .error .zeroDivision else .ok ((n : ℚ) / q)

theorem except_pure_eq_ok {ε α : Type} (a : α) : (pure a : Except ε α) = Except.ok a := rfl

theorem except_bind_ok {ε α β : Type} (a : α) (f : α → Except ε β) :
    (Except.ok a : Except ε α) >>= f = f a := rfl

theorem except_bind_error {ε α β : Type} (e : ε) (f : α → Except ε β) :
    (Except.error e : Except ε α) >>= f = Except.error e := rfl

theorem except_throw_eq {ε α : Type} (e : ε) : (throw e : Except ε α) = Except.error e := rfl

attribute [simp] except_pure_eq_ok except_bind_ok except_bind_error except_throw_eq

/-- Method _16bit_unsigned of class _OPC: (MSB << 8) | LSB. -/
def u16 (lsb msb : ℕ) : ℕ := (msb <<< 8) ||| lsb

/-- The little-endian 32-bit integer
(vals[3] << 24) | (vals[2] << 16) | (vals[1] << 8) | vals[0] shared by
the _calculate_temp, _calculate_hum and _calculate_pressure bodies. -/
def le32 (vals : List ℕ) : ℕ :=
  (vals.getD 3 0 <<< 24) ||| (vals.getD 2 0 <<< 16) ||| (vals.getD 1 0 <<< 8) ||| vals.getD 0 0

/-- IEEE-754 binary32 value carried by four little-endian bytes, exactly
as struct.unpack would produce it; the finite values are converted
exactly into rationals. -/
def float32FromBytes (b0 b1 b2 b3 : ℕ) : PyFloat :=
  let bits : ℕ := b0 ||| (b1 <<< 8) ||| (b2 <<< 16) ||| (b3 <<< 24)
  let sign : ℕ := bits / 2 ^ 31 % 2
  let expo : ℕ := bits / 2 ^ 23 % 256
  let mant : ℕ := bits % 2 ^ 23
  if expo = 255 then
    (if mant = 0 then .inf (decide (sign = 1)) else .nan)
  else
    let mag : ℚ :=
      if expo = 0 then (mant : ℚ) / 2 ^ 149
      else (2 ^ 23 + (mant : ℚ)) * 2 ^ expo / 2 ^ 150
    .fin (if sign = 1 then -mag else mag)

/-- Method _calculate_float of class _OPC: None unless given exactly four
bytes, otherwise the IEEE-754 float of those bytes. -/
def calculate_float (vals : List ℕ) : Option PyFloat :=
  match vals with
  | [b0, b1, b2, b3] => some (float32FromBytes b0 b1 b2 b3)
  | _ => none

/-- Method _calculate_mtof of class _OPC: mtof / 3.0. -/
def calculate_mtof (m : ℕ) : ℚ := (m : ℚ) / 3

/-- Method _calculate_temp of class _OPC.  Despite the docstring, this
fork returns the raw little-endian 32-bit integer with no scaling. -/
def calculate_temp (vals : List ℕ) : Option ℕ :=
  if vals.length < 4 then none else some (le32 vals)

/-- Method _calculate_pressure of class _OPC: the raw little-endian
32-bit integer. -/
def calculate_pressure (vals : List ℕ) : Option ℕ :=
  if vals.length < 4 then none else some (le32 vals)

/-- Method _calculate_temp_uint of class _OPC: -45 + 175 * u16 / 65535. -/
def calculate_temp_uint (lsb msb : ℕ) : ℚ :=
  -45 + 175 * (u16 lsb msb : ℚ) / (2 ^ 16 - 1)

/-- Method _calculate_hum_uint of class _OPC: 100 * u16 / 65535. -/
def calculate_hum_uint (lsb msb : ℕ) : ℚ :=
  100 * (u16 lsb msb : ℚ) / (2 ^ 16 - 1)

/-- Method _calculate_flowrate of class _OPC: u16 / 100. -/
def calculate_flowrate (lsb msb : ℕ) : ℚ := (u16 lsb msb : ℚ) / 100

/-- Method _calculate_period_uint of class _OPC: u16 / 100. -/
def calculate_period_uint (lsb msb : ℕ) : ℚ := (u16 lsb msb : ℚ) / 100

/-- Method _calculate_period of class _OPC.  For a slice shorter than
four bytes it returns None.  Otherwise it evaluates the guard
`self.firmware < 16`; self.firmware is the firmware dict, and comparing a
dict with an int raises TypeError in Python 3, so neither the
little-endian-integer/12e6 branch nor the _calculate_float branch is ever
reached. -/
def calculate_period (vals : List ℕ) : Except PyErr (Option ℚ) :=
  if vals.length < 4 then .ok none else .error .typeError

theorem calculate_float_four (a b c d : ℕ) :
    calculate_float [a, b, c, d] = some (float32FromBytes a b c d) := rfl

theorem calculate_temp_four (a b c d : ℕ) :
    calculate_temp [a, b, c, d] = some (le32 [a, b, c, d]) := rfl

theorem calculate_pressure_four (a b c d : ℕ) :
    calculate_pressure [a, b, c, d] = some (le32 [a, b, c, d]) := rfl

theorem calculate_period_four (a b c d : ℕ) :
    calculate_period [a, b, c, d] = Except.error PyErr.typeError := rfl

attribute [simp] calculate_float_four calculate_temp_four calculate_pressure_four
attribute [simp] calculate_period_four

/-- The N2/N1 histogram record in the firmware-16-and-later layout of
OPCN2.histogram.  Bins are Python numbers: raw ints embed as their exact
finite values, and become floats after number-concentration division. -/
structure HistN2 where
  bins : List PyFloat
  bin1MToF : ℚ
  bin3MToF : ℚ
  bin5MToF : ℚ
  bin7MToF : ℚ
  sfr : Option PyFloat
  temperature : Option ℕ
  pressure : Option ℕ
  samplingPeriod : Option PyFloat
  checksum : ℕ
  pm1 : Option PyFloat
  pm25 : Option PyFloat
  pm10 : Option PyFloat
deriving DecidableEq, Repr

/-- The N3 histogram record produced by OPCN3.histogram. -/
structure HistN3 where
  bins : List ℚ
  bin1MToF : ℚ
  bin3MToF : ℚ
  bin5MToF : ℚ
  bin7MToF : ℚ
  samplingPeriod : ℚ
  sampleFlowRate : ℚ
  temperature : ℚ
  relativeHumidity : ℚ
  pm1 : Option PyFloat
  pm25 : Option PyFloat
  pm10 : Option PyFloat
  rejectGlitch : ℕ
  rejectLongTOF : ℕ
  rejectRatioCnt : ℕ
  rejectOutOfRange : ℕ
  fanRevCount : ℕ
  laserStatus : ℕ
  checksum : ℕ
deriving DecidableEq, Repr

/-- The N1 histogram record that OPCN1.read_histogram would produce. -/
structure HistN1 where
  bins : List ℕ
  bin1MToF : ℚ
  bin3MToF : ℚ
  bin5MToF : ℚ
  bin7MToF : ℚ
  temperature : Option ℕ
  pressure : Option ℕ
  samplingPeriod : Option ℚ
  checksum : ℕ
  pm1 : Option PyFloat
  pm25 : Option PyFloat
  pm10 : Option PyFloat
deriving DecidableEq, Repr

/-- The sixteen raw bin counts of an N1/N2 histogram frame,
data[Bin 0] .. data[Bin 15], decoded from resp[0..31]. -/
def rawBins16 (resp : Fin 62 → ℕ) : List ℕ :=
  [u16 (resp 0) (resp 1), u16 (resp 2) (resp 3), u16 (resp 4) (resp 5),
   u16 (resp 6) (resp 7), u16 (resp 8) (resp 9), u16 (resp 10) (resp 11),
   u16 (resp 12) (resp 13), u16 (resp 14) (resp 15), u16 (resp 16) (resp 17),
   u16 (resp 18) (resp 19), u16 (resp 20) (resp 21), u16 (resp 22) (resp 23),
   u16 (resp 24) (resp 25), u16 (resp 26) (resp 27), u16 (resp 28) (resp 29),
   u16 (resp 30) (resp 31)]

/-- The twenty-four raw bin counts of an N3 histogram frame,
data[Bin 0] .. data[Bin 23], decoded from resp[0..47]. -/
def rawBins24 (resp : Fin 86 → ℕ) : List ℕ :=
  [u16 (resp 0) (resp 1), u16 (resp 2) (resp 3), u16 (resp 4) (resp 5),
   u16 (resp 6) (resp 7), u16 (resp 8) (resp 9), u16 (resp 10) (resp 11),
   u16 (resp 12) (resp 13), u16 (resp 14) (resp 15), u16 (resp 16) (resp 17),
   u16 (resp 18) (resp 19), u16 (resp 20) (resp 21), u16 (resp 22) (resp 23),
   u16 (resp 24) (resp 25), u16 (resp 26) (resp 27), u16 (resp 28) (resp 29),
   u16 (resp 30) (resp 31), u16 (resp 32) (resp 33), u16 (resp 34) (resp 35),
   u16 (resp 36) (resp 37), u16 (resp 38) (resp 39), u16 (resp 40) (resp 41),
   u16 (resp 42) (resp 43), u16 (resp 44) (resp 45), u16 (resp 46) (resp 47)]

/-- The per-bin number-concentration divisions of OPCN2.histogram: each
raw count is divided by the divisor in order, and the first
ZeroDivisionError aborts the operation. -/
def divideBins (conv : PyFloat) : List ℕ → Except PyErr (List PyFloat)
  | [] => .ok []
  | b :: rest => do
    let v ← pyDivNat b conv
    let vs ← divideBins conv rest
    pure (v :: vs)

/-- The per-bin number-concentration divisions of OPCN3.histogram, whose
divisor is a finite u16-derived value. -/
def divideBinsQ (conv : ℚ) : List ℕ → Except PyErr (List ℚ)
  | [] => .ok []
  | b :: rest => do
    let v ← pyDivQ b conv
    let vs ← divideBinsQ conv rest
    pure (v :: vs)

/-- Method histogram of class OPCN2 (decoding part, after the 62 response
bytes have been read).  fwVersion is self.firmware[version];
number_concentration selects the per-bin division.  Except.error models a
raised exception and ok none models the source returning None after a
checksum mismatch. -/
def opcn2Histogram (fwVersion : ℚ) (number_concentration : Bool)
    (resp : Fin 62 → ℕ) : Except PyErr (Option HistN2) := do
  let rawBins := rawBins16 resp
  let mtof1 := calculate_mtof (resp 32)
  let mtof3 := calculate_mtof (resp 33)
  let mtof5 := calculate_mtof (resp 34)
  let mtof7 := calculate_mtof (resp 35)
  if fwVersion < 16 then
    -- Firmware 14/15 layout: Temperature and Pressure are the raw LE32
    -- decodes of resp[36:40] and resp[40:44]; the sampling period then
    -- calls _calculate_period, which raises TypeError on its
    -- firmware-dict guard, aborting the whole read.
    let _temperature := calculate_temp [resp 36, resp 37, resp 38, resp 39]
    let _pressure := calculate_pressure [resp 40, resp 41, resp 42, resp 43]
    let _period ← calculate_period [resp 44, resp 45, resp 46, resp 47]
    throw PyErr.typeError
  else
    let sfr := calculate_float [resp 36, resp 37, resp 38, resp 39]
    -- Temperature / pressure disambiguation on the ambiguous slice
    -- resp[40:44]: decode as pressure first; above 98000 keep it as
    -- pressure, otherwise re-decode as temperature and keep it if below
    -- 500, otherwise both stay None.
    let praw ← match calculate_pressure [resp 40, resp 41, resp 42, resp 43] with
      | none => throw PyErr.typeError
      | some v => pure v
    let tempPressure ←
      if praw > 98000 then
        pure ((none : Option ℕ), some praw)
      else
        match calculate_temp [resp 40, resp 41, resp 42, resp 43] with
        | none => throw PyErr.typeError
        | some traw =>
          if traw < 500 then pure (some traw, (none : Option ℕ))
          else pure ((none : Option ℕ), (none : Option ℕ))
    let samplingPeriod := calculate_float [resp 44, resp 45, resp 46, resp 47]
    let checksum := u16 (resp 48) (resp 49)
    let pm1 := calculate_float [resp 50, resp 51, resp 52, resp 53]
    let pm25 := calculate_float [resp 54, resp 55, resp 56, resp 57]
    let pm10 := calculate_float [resp 58, resp 59, resp 60, resp 61]
    if (rawBins.sum &&& 0xFFFF) ≠ checksum then
      -- Checksum mismatch: warn and return None, discarding the reading.
      pure none
    else if number_concentration then
      let sfrv ← match sfr with
        | none => throw PyErr.typeError
        | some v => pure v
      let spv ← match samplingPeriod with
        | none => throw PyErr.typeError
        | some v => pure v
      let bins ← divideBins (PyFloat.mul sfrv spv) rawBins
      pure (some {
        bins := bins,
        bin1MToF := mtof1,
        bin3MToF := mtof3,
        bin5MToF := mtof5,
        bin7MToF := mtof7,
        sfr := sfr,
        temperature := tempPressure.1,
        pressure := tempPressure.2,
        samplingPeriod := samplingPeriod,
        checksum := checksum,
        pm1 := pm1,
        pm25 := pm25,
        pm10 := pm10 })
    else
      pure (some {
        bins := rawBins.map (fun b => PyFloat.fin b),
        bin1MToF := mtof1,
        bin3MToF := mtof3,
        bin5MToF := mtof5,
        bin7MToF := mtof7,
        sfr := sfr,
        temperature := tempPressure.1,
        pressure := tempPressure.2,
        samplingPeriod := samplingPeriod,
        checksum := checksum,
        pm1 := pm1,
        pm25 := pm25,
        pm10 := pm10 })

/-- Method histogram of class OPCN3 (decoding part, after the handshake
loop and the 86 response bytes).  The bin sum is compared against the
checksum, but on a mismatch the source only prints a warning (its return
None is commented out), so decoding continues with the garbled data and
the record is returned regardless. -/
def opcn3Histogram (number_concentration : Bool) (resp : Fin 86 → ℕ) :
    Except PyErr HistN3 := do
  let rawBins := rawBins24 resp
  let mtof1 := calculate_mtof (resp 48)
  let mtof3 := calculate_mtof (resp 49)
  let mtof5 := calculate_mtof (resp 50)
  let mtof7 := calculate_mtof (resp 51)
  let samplingPeriod := calculate_period_uint (resp 52) (resp 53)
  let sampleFlowRate := calculate_flowrate (resp 54) (resp 55)
  let temperature := calculate_temp_uint (resp 56) (resp 57)
  let relativeHumidity := calculate_hum_uint (resp 58) (resp 59)
  let pm1 := calculate_float [resp 60, resp 61, resp 62, resp 63]
  let pm25 := calculate_float [resp 64, resp 65, resp 66, resp 67]
  let pm10 := calculate_float [resp 68, resp 69, resp 70, resp 71]
  let rejectGlitch := u16 (resp 72) (resp 73)
  let rejectLongTOF := u16 (resp 74) (resp 75)
  let rejectRatioCnt := u16 (resp 76) (resp 77)
  let rejectOutOfRange := u16 (resp 78) (resp 79)
  let fanRevCount := u16 (resp 80) (resp 81)
  let laserStatus := u16 (resp 82) (resp 83)
  let checksum := u16 (resp 84) (resp 85)
  let _histogramSum := rawBins.sum
  if number_concentration then
    let conv := sampleFlowRate * samplingPeriod
    let bins ← divideBinsQ conv rawBins
    pure {
      bins := bins,
      bin1MToF := mtof1,
      bin3MToF := mtof3,
      bin5MToF := mtof5,
      bin7MToF := mtof7,
      samplingPeriod := samplingPeriod,
      sampleFlowRate := sampleFlowRate,
      temperature := temperature,
      relativeHumidity := relativeHumidity,
      pm1 := pm1,
      pm25 := pm25,
      pm10 := pm10,
      rejectGlitch := rejectGlitch,
      rejectLongTOF := rejectLongTOF,
      rejectRatioCnt := rejectRatioCnt,
      rejectOutOfRange := rejectOutOfRange,
      fanRevCount := fanRevCount,
      laserStatus := laserStatus,
      checksum := checksum }
  else
    pure {
      bins := rawBins.map (fun b => (b : ℚ)),
      bin1MToF := mtof1,
      bin3MToF := mtof3,
      bin5MToF := mtof5,
      bin7MToF := mtof7,
      samplingPeriod := samplingPeriod,
      sampleFlowRate := sampleFlowRate,
      temperature := temperature,
      relativeHumidity := relativeHumidity,
      pm1 := pm1,
      pm25 := pm25,
      pm10 := pm10,
      rejectGlitch := rejectGlitch,
      rejectLongTOF := rejectLongTOF,
      rejectRatioCnt := rejectRatioCnt,
      rejectOutOfRange := rejectOutOfRange,
      fanRevCount := fanRevCount,
      laserStatus := laserStatus,
      checksum := checksum }

/-- Method read_histogram of class OPCN1 (decoding part).  The sampling
period calls _calculate_period on resp[44:48], which raises TypeError on
its firmware-dict guard, so decoding never completes; the bin sum at the
end of the source is computed but never compared to anything. -/
def opcn1ReadHistogram (resp : Fin 62 → ℕ) : Except PyErr HistN1 := do
  let rawBins := rawBins16 resp
  let mtof1 := calculate_mtof (resp 32)
  let mtof3 := calculate_mtof (resp 33)
  let mtof5 := calculate_mtof (resp 34)
  let mtof7 := calculate_mtof (resp 35)
  let temperature := calculate_temp [resp 36, resp 37, resp 38, resp 39]
  let pressure := calculate_pressure [resp 40, resp 41, resp 42, resp 43]
  let samplingPeriod ← calculate_period [resp 44, resp 45, resp 46, resp 47]
  let checksum := u16 (resp 48) (resp 49)
  let pm1 := calculate_float [resp 50, resp 51, resp 52, resp 53]
  let pm25 := calculate_float [resp 54, resp 55, resp 56, resp 57]
  let pm10 := calculate_float [resp 58, resp 59, resp 60, resp 61]
  let _histogramSum := rawBins.sum
  pure {
    bins := rawBins,
    bin1MToF := mtof1,
    bin3MToF := mtof3,
    bin5MToF := mtof5,
    bin7MToF := mtof7,
    temperature := temperature,
    pressure := pressure,
    samplingPeriod := samplingPeriod,
    checksum := checksum,
    pm1 := pm1,
    pm25 := pm25,
    pm10 := pm10 }

/-- The ready poll preceding OPCN3 power commands (methods on, off,
fan_on, fan_off, laser_on, laser_off of class OPCN3): send 0x03, and
while the echoed byte is not 0x31 sleep three seconds and send 0x03
again.  dev i is the response to the i-th transfer, and fuel bounds how
many polls of the unbounded source loop we run; the result is the index
of the first ready echo, or none if fuel ran out with the loop still
polling. -/
def n3PowerReadyLoop (dev : ℕ → ℕ) : ℕ → ℕ → Option ℕ
  | _, 0 => none
  | i, fuel + 1 =>
    if dev i = 0x31 then some i else n3PowerReadyLoop dev (i + 1) fuel

/-- The handshake loop at the top of method histogram of class OPCN3: two
0x30 transfers per iteration, repeated until the pair of echoes is
(0x31, 0xF3).  Iteration i consumes responses dev (2i) and dev (2i+1). -/
def n3HistReadyLoop (dev : ℕ → ℕ) : ℕ → ℕ → Option ℕ
  | _, 0 => none
  | i, fuel + 1 =>
    if dev (2 * i) = 0x31 ∧ dev (2 * i + 1) = 0xF3 then some i
    else n3HistReadyLoop dev (i + 1) fuel

/-- Observable outcome of running the wait() polling loop for a bounded
number of iterations. -/
inductive WaitOutcome where
  | looping : WaitOutcome
  | raised : PyErr → WaitOutcome
  | returned : WaitOutcome
deriving DecidableEq, Repr

/-- The `while True` loop of method wait of class _OPC.  hist i is the
outcome of the i-th histogram() call: an exception, ok none (the source
then raises UserWarning, which the loop catches and sleeps on), or a
successful reading.  No branch leaves the loop: a successful reading
simply falls through to the next iteration, and only a non-UserWarning
exception escapes. -/
def waitLoop (hist : ℕ → Except PyErr (Option Unit)) : ℕ → ℕ → WaitOutcome
  | _, 0 => .looping
  | i, fuel + 1 =>
    match hist i with
    | .error .userWarning => waitLoop hist (i + 1) fuel
    | .error e => .raised e
    | .ok none => waitLoop hist (i + 1) fuel
    | .ok (some _) => waitLoop hist (i + 1) fuel

/-- Method set_fan_power of class OPCN2.  The result pairs the Python
return value (or raised exception) with the list of byte values clocked
out on the bus; dev i is the response to the i-th transfer.  Only
power > 255 is checked before the transfers. -/
def set_fan_power (dev : ℕ → ℕ) (power : ℤ) : Except PyErr Bool × List ℤ :=
  if power > 255 then (.error .valueError, [])
  else
    let a := dev 0
    let b := dev 1
    let c := dev 2
    (.ok (a == 0xF3 && b == 0x42 && c == 0x00), [0x42, 0x00, power])

/-- Method set_laser_power of class OPCN2, analogous to set_fan_power
with sub-selector byte 0x01. -/
def set_laser_power (dev : ℕ → ℕ) (power : ℤ) : Except PyErr Bool × List ℤ :=
  if power > 255 then (.error .valueError, [])
  else
    let a := dev 0
    let b := dev 1
    let c := dev 2
    (.ok (a == 0xF3 && b == 0x42 && c == 0x01), [0x42, 0x01, power])

/-- The firmware dict {major, minor, version} of class _OPC. -/
structure Firmware where
  major : Option ℕ
  minor : Option ℕ
  version : Option ℚ
deriving DecidableEq, Repr

/-- Number of decimal digits of n, with explicit fuel (n itself always
suffices). -/
def decDigitsAux : ℕ → ℕ → ℕ
  | 0, _ => 1
  | fuel + 1, n => if n < 10 then 1 else decDigitsAux fuel (n / 10) + 1

/-- Number of decimal digits of n. -/
def decDigits (n : ℕ) : ℕ := decDigitsAux n n

/-- The value float("{major}.{minor}") computed by the constructor of
class _OPC: the decimal number whose integer part is major and whose
fractional digits are the decimal digits of minor. -/
def pyVersionFloat (major minor : ℕ) : ℚ :=
  (major : ℚ) + (minor : ℚ) / 10 ^ decDigits minor

/-- The firmware state produced by the constructor of class _OPC (lines
42-64): major/minor/version come from the explicit firmware tuple when
one is given and are None otherwise, and then line 64 unconditionally
overwrites the version with 18.0, so the subsequent
`if version is None` info-string detection loop never runs. -/
def initFirmware (firmware : Option (ℕ × ℕ)) : Firmware :=
  let fw : Firmware :=
    match firmware with
    | some (ma, mi) =>
      { major := some ma, minor := some mi,
        version := some (pyVersionFloat ma mi) }
    | none => { major := none, minor := none, version := none }
  { fw with version := some 18 }

/-- The constructor of class OPCN2: after the base constructor runs, the
supported-range check evaluates `self.firmware[major] < 14.0`.  When no
explicit firmware tuple was supplied, major is still None and the
comparison raises TypeError in Python 3; otherwise majors outside 14..18
raise FirmwareVersionError and in-range majors complete construction. -/
def opcn2Init (firmware : Option (ℕ × ℕ)) : Except PyErr Firmware :=
  let fw := initFirmware firmware
  match fw.major with
  | none => .error .typeError
  | some ma =>
    if (ma : ℚ) < 14 ∨ (ma : ℚ) > 18 then .error .firmwareVersion
    else .ok fw

/-- Modelled from the spec: the OPC_LOOKUP bin-boundary table lives in
opc/lookup_table.py, which is not among the sources here; the spec fixes
only its shape (a fixed 4096-entry table from ADC code to microns), so
the clamping lookup of method lookup_bin_boundary of class _OPC is
stated over an arbitrary table, passed as a parameter. -/
def lookup_bin_boundary (table : List ℚ) (adc_value : ℤ) : Option ℚ :=
  let v1 := if adc_value < 0 then 0 else adc_value
  let v2 := if v1 > 4095 then 4095 else v1
  table.get? v2.toNat

/-- Saturating clamp of an ADC code into [0, 4095], as performed inline
by lookup_bin_boundary. -/
def clampAdc (x : ℤ) : ℤ :=
  let v1 := if x < 0 then 0 else x
  if v1 > 4095 then 4095 else v1

/-- C5: the ready loops of OPCN3 are unbounded.  With a transport that
never echoes the ready byte 0x31 both the power-command ready poll and
the histogram handshake poll run forever, for every fuel bound; and when
a loop does finish, it finished on a genuine ready echo, so the command
is never issued with the device in an unknown state. -/
theorem n3_ready_loops_unbounded :
    (∀ (dev : ℕ → ℕ), (∀ j, dev j ≠ 0x31) →
      ∀ i fuel, n3PowerReadyLoop dev i fuel = none) ∧
    (∀ (dev : ℕ → ℕ), (∀ j, dev j ≠ 0x31) →
      ∀ i fuel, n3HistReadyLoop dev i fuel = none) ∧
    (∀ (dev : ℕ → ℕ) (i fuel j : ℕ),
      n3PowerReadyLoop dev i fuel = some j → dev j = 0x31) ∧
    (∀ (dev : ℕ → ℕ) (i fuel j : ℕ),
      n3HistReadyLoop dev i fuel = some j →
        dev (2 * j) = 0x31 ∧ dev (2 * j + 1) = 0xF3) := by
  refine ⟨?_, ?_, ?_, ?_⟩
  · intro dev hnever i fuel
    induction fuel generalizing i with
    | zero => rfl
    | succ n ih => simp [n3PowerReadyLoop, hnever i, ih]
  · intro dev hnever i fuel
    induction fuel generalizing i with
    | zero => rfl
    | succ n ih => simp [n3HistReadyLoop, hnever (2 * i), ih]
  · intro dev i fuel
    induction fuel generalizing i with
    | zero => intro j hj; simp [n3PowerReadyLoop] at hj
    | succ n ih =>
      intro j hj
      by_cases hready : dev i = 0x31
      · simp [n3PowerReadyLoop, hready] at hj
        simpa [hj] using hready
      · simp only [n3PowerReadyLoop, if_neg hready] at hj
        exact ih (i + 1) j hj
  · intro dev i fuel
    induction fuel generalizing i with
    | zero => intro j hj; simp [n3HistReadyLoop] at hj
    | succ n ih =>
      intro j hj
      by_cases hready : dev (2 * i) = 0x31 ∧ dev (2 * i + 1) = 0xF3
      · simp [n3HistReadyLoop, hready] at hj
        simpa [hj] using hready
      · simp only [n3HistReadyLoop, if_neg hready] at hj
        exact ih (i + 1) j hj

/-- C5 counterexample: against a transport that never answers 0x31, the
power ready loop is still polling after 101 attempts, far beyond the
default retry budget of 5, and no TimedOut failure can occur (nothing in
the loop counts attempts); the histogram handshake behaves the same. -/
theorem n3_ready_loop_no_timeout_after_retries :
    n3PowerReadyLoop (fun _ => 0) 0 101 = none ∧
    n3HistReadyLoop (fun _ => 0) 0 101 = none := by
  exact ⟨by decide, by decide⟩

/-- C5 witness for the amended statement, at a concrete never-ready
transport and a concrete always-ready transport. -/
theorem n3_ready_loops_unbounded_witness :
    n3PowerReadyLoop (fun _ => 0) 0 7 = none ∧
    n3HistReadyLoop (fun _ => 0) 0 7 = none ∧
    (fun _ : ℕ => 0x31) 0 = 0x31 :=
  ⟨n3_ready_loops_unbounded.1 (fun _ => 0) (fun j => by simp) 0 7,
   n3_ready_loops_unbounded.2.1 (fun _ => 0) (fun j => by simp) 0 7,
   n3_ready_loops_unbounded.2.2.1 (fun _ => 0x31) 0 1 0 (by decide)⟩

/-- C6: the wait() polling loop has no exit condition on success: for
every stream of histogram outcomes and every number of iterations, the
loop never returns to its caller (a successful, non-None reading simply
falls through into the next iteration; only a non-UserWarning exception
can escape). -/
theorem wait_loop_never_returns (hist : ℕ → Except PyErr (Option Unit)) (i fuel : ℕ) :
    waitLoop hist i fuel ≠ WaitOutcome.returned := by
  induction fuel generalizing i with
  | zero => simp [waitLoop]
  | succ n ih =>
    simp only [waitLoop]
    cases hh : hist i with
    | error e => cases e <;> simp [ih]
    | ok o => cases o <;> simp [ih]

/-- C7 (amended): only power values above 255 are rejected before any bus
traffic; a power value at or below 255, including every negative value,
passes the check unvalidated and the command byte, the sub-selector and
the raw power value are clocked out on the bus. -/
theorem set_power_validation_only_upper (dev : ℕ → ℕ) (power : ℤ) :
    (255 < power →
      set_fan_power dev power = (Except.error PyErr.valueError, []) ∧
      set_laser_power dev power = (Except.error PyErr.valueError, [])) ∧
    (power ≤ 255 →
      (set_fan_power dev power).2 = [0x42, 0x00, power] ∧
      (set_laser_power dev power).2 = [0x42, 0x01, power]) := by
  constructor
  · intro hgt
    constructor <;> simp [set_fan_power, set_laser_power, hgt]
  · intro hle
    constructor <;> simp [set_fan_power, set_laser_power, not_lt.mpr hle]

/-- C7 counterexample: set_fan_power with the out-of-range power -1 is
not rejected: no exception is raised (the call returns False only
because the zero transport gives the wrong status echoes) and three
bytes, including the raw value -1, are clocked out on the bus. -/
theorem set_fan_power_negative_not_rejected :
    set_fan_power (fun _ => 0) (-1) = (Except.ok false, [0x42, 0x00, -1]) ∧
    set_laser_power (fun _ => 0) (-1) = (Except.ok false, [0x42, 0x01, -1]) := by
  exact ⟨rfl, rfl⟩

/-- C7 witness at the concrete powers 300 (rejected, no traffic) and -1
(not rejected, traffic issued). -/
theorem set_power_validation_only_upper_witness :
    set_fan_power (fun _ => 0) 300 = (Except.error PyErr.valueError, []) ∧
    (set_fan_power (fun _ => 0) (-1)).2 = [0x42, 0x00, -1] :=
  ⟨((set_power_validation_only_upper (fun _ => 0) 300).1 (by norm_num)).1,
   ((set_power_validation_only_upper (fun _ => 0) (-1)).2 (by norm_num)).1⟩

/-- C4 (amended): the base constructor unconditionally forces the
firmware version to 18.0.  Without an explicit firmware argument the
major and minor stay None but the version is still 18.0, so the version
is never unknown and the info-string detection loop is dead code; with an
explicit (major, minor) tuple the major and minor are stored but the
version is still overwritten with 18.0. -/
theorem firmware_version_always_forced :
    (∀ arg : Option (ℕ × ℕ), (initFirmware arg).version = some 18) ∧
    (initFirmware none).major = none ∧
    (initFirmware none).minor = none ∧
    (∀ ma mi : ℕ, (initFirmware (some (ma, mi))).major = some ma ∧
      (initFirmware (some (ma, mi))).minor = some mi) := by
  refine ⟨?_, rfl, rfl, ?_⟩
  · intro arg
    rcases arg with _ | ⟨ma, mi⟩ <;> rfl
  · intro ma mi
    exact ⟨rfl, rfl⟩

/-- C4 counterexample: a session constructed with the explicit firmware
tuple (14, 2) does not get version 14.2; line 64 overwrites the version
with 18.0, and a session constructed with no firmware argument has the
known version 18.0 immediately instead of an unknown version. -/
theorem firmware_explicit_tuple_overwritten :
    (initFirmware (some (14, 2))).version = some 18 ∧
    pyVersionFloat 14 2 = 71 / 5 ∧
    ((71 : ℚ) / 5) ≠ 18 ∧
    (initFirmware none).version = some 18 := by
  refine ⟨rfl, ?_, by norm_num, rfl⟩
  simp [pyVersionFloat, decDigits, decDigitsAux]
  norm_num

/-- C10: constructing an OPCN2 session without an explicit firmware
tuple always fails: the base constructor leaves major as None, and the
supported-range check then attempts `None < 14.0`, which raises
TypeError, so an explicit firmware tuple is a de-facto precondition of
OPCN2 construction. -/
theorem opcn2_requires_explicit_firmware :
    opcn2Init none = Except.error PyErr.typeError ∧
    ∀ (arg : Option (ℕ × ℕ)) (fw : Firmware),
      opcn2Init arg = Except.ok fw → arg ≠ none := by
  refine ⟨rfl, ?_⟩
  intro arg fw hok harg
  subst harg
  simp [opcn2Init, initFirmware] at hok

/-- C10 witness: the explicit tuple (14, 2) yields a successful
construction, and the theorem instantiated there confirms such an
argument is not None. -/
theorem opcn2_requires_explicit_firmware_witness :
    (opcn2Init (some (14, 2))).isOk = true ∧
    (some ((14 : ℕ), (2 : ℕ)) : Option (ℕ × ℕ)) ≠ none := by
  have hval : opcn2Init (some (14, 2)) =
      Except.ok { major := some 14, minor := some 2, version := some 18 } := by
    simp [opcn2Init, initFirmware]
    norm_num
  exact ⟨by rw [hval]; rfl,
    opcn2_requires_explicit_firmware.2 (some (14, 2)) _ hval⟩

/-- The lookup body is the clamp followed by the table access. -/
theorem lookup_bin_boundary_def (table : List ℚ) (x : ℤ) :
    lookup_bin_boundary table x = table.get? (clampAdc x).toNat := rfl

/-- The sequential clamp of lookup_bin_boundary as a nested conditional. -/
theorem clampAdc_eq (x : ℤ) :
    clampAdc x = if x < 0 then 0 else if x > 4095 then 4095 else x := by
  unfold clampAdc
  dsimp only
  split_ifs <;> omega

theorem clampAdc_idem (x : ℤ) : clampAdc (clampAdc x) = clampAdc x := by
  rw [clampAdc_eq, clampAdc_eq]
  split_ifs <;> omega

/-- C9: lookup_bin_boundary clamps its argument into [0, 4095] before
indexing: looking up any integer equals looking up its clamp, inputs
below 0 return the entry for ADC code 0, inputs above 4095 return the
entry for ADC code 4095, in-range inputs return the entry at that index,
and on a 4096-entry table the lookup always produces a value (saturation
is never an error). -/
theorem lookup_bin_boundary_clamps :
    (∀ (table : List ℚ) (x : ℤ),
      lookup_bin_boundary table x = lookup_bin_boundary table (clampAdc x)) ∧
    (∀ (table : List ℚ) (x : ℤ), x < 0 →
      lookup_bin_boundary table x = table.get? 0) ∧
    (∀ (table : List ℚ) (x : ℤ), x > 4095 →
      lookup_bin_boundary table x = table.get? 4095) ∧
    (∀ (table : List ℚ) (x : ℤ), 0 ≤ x → x ≤ 4095 →
      lookup_bin_boundary table x = table.get? x.toNat) ∧
    (∀ (table : List ℚ) (x : ℤ), table.length = 4096 →
      (lookup_bin_boundary table x).isSome = true) := by
  refine ⟨?_, ?_, ?_, ?_, ?_⟩
  · intro table x
    rw [lookup_bin_boundary_def, lookup_bin_boundary_def, clampAdc_idem]
  · intro table x hx
    rw [lookup_bin_boundary_def, clampAdc_eq, if_pos hx]
    rfl
  · intro table x hx
    rw [lookup_bin_boundary_def, clampAdc_eq, if_neg (by omega : ¬ x < 0), if_pos hx]
    rfl
  · intro table x hx0 hx4
    rw [lookup_bin_boundary_def, clampAdc_eq, if_neg (by omega : ¬ x < 0),
      if_neg (by omega : ¬ x > 4095)]
  · intro table x hlen
    rw [lookup_bin_boundary_def]
    have hlt : (clampAdc x).toNat < table.length := by
      rw [hlen, clampAdc_eq]
      split_ifs <;> omega
    rw [List.get?_eq_get hlt]
    rfl

/-- C9 witness on a concrete 4096-entry table: an input above the range
saturates to the entry for 4095, an input below the range saturates to
the entry for 0, and the lookup is defined. -/
theorem lookup_bin_boundary_clamps_witness :
    lookup_bin_boundary (List.replicate 4096 ((37 : ℚ) / 100)) 5000 =
      (List.replicate 4096 ((37 : ℚ) / 100)).get? 4095 ∧
    lookup_bin_boundary (List.replicate 4096 ((37 : ℚ) / 100)) (-7) =
      (List.replicate 4096 ((37 : ℚ) / 100)).get? 0 ∧
    (lookup_bin_boundary (List.replicate 4096 ((37 : ℚ) / 100)) 5000).isSome = true :=
  ⟨lookup_bin_boundary_clamps.2.2.1 _ 5000 (by norm_num),
   lookup_bin_boundary_clamps.2.1 _ (-7) (by norm_num),
   lookup_bin_boundary_clamps.2.2.2.2 _ 5000 (List.length_replicate 4096 _)⟩


/-- Decoding an N2 frame under a firmware version below 16 always raises:
the layout branch calls _calculate_period, whose firmware-dict guard
raises TypeError. -/
theorem opcn2Histogram_lt16 (fw : ℚ) (nc : Bool) (resp : Fin 62 → ℕ) (hfw : fw < 16) :
    opcn2Histogram fw nc resp = Except.error PyErr.typeError := by
  simp [opcn2Histogram, hfw]

/-- Inversion on a successful N2 decode under firmware 16 or later: the
temperature/pressure pair follows the threshold policy on the raw LE32
value of resp[40:44], the sampling period and SFR are the IEEE-float
decodes of their slices, the stored checksum is the u16 at resp[48:50],
and the raw bin sum matches it. -/
theorem opcn2Histogram_fields (fw : ℚ) (nc : Bool) (resp : Fin 62 → ℕ) (h : HistN2)
    (hfw : 16 ≤ fw) (hok : opcn2Histogram fw nc resp = Except.ok (some h)) :
    ((98000 < le32 [resp 40, resp 41, resp 42, resp 43] →
        h.temperature = none ∧ h.pressure = some (le32 [resp 40, resp 41, resp 42, resp 43])) ∧
      (¬ 98000 < le32 [resp 40, resp 41, resp 42, resp 43] →
        le32 [resp 40, resp 41, resp 42, resp 43] < 500 →
        h.temperature = some (le32 [resp 40, resp 41, resp 42, resp 43]) ∧ h.pressure = none) ∧
      (¬ 98000 < le32 [resp 40, resp 41, resp 42, resp 43] →
        ¬ le32 [resp 40, resp 41, resp 42, resp 43] < 500 →
        h.temperature = none ∧ h.pressure = none)) ∧
    h.samplingPeriod = calculate_float [resp 44, resp 45, resp 46, resp 47] ∧
    h.sfr = calculate_float [resp 36, resp 37, resp 38, resp 39] ∧
    h.checksum = u16 (resp 48) (resp 49) ∧
    (rawBins16 resp).sum &&& 0xFFFF = u16 (resp 48) (resp 49) := by
  unfold opcn2Histogram at hok
  rw [if_neg (not_lt.mpr hfw)] at hok
  simp only [calculate_pressure_four, calculate_temp_four, calculate_float_four,
    except_bind_ok, except_pure_eq_ok, except_throw_eq] at hok
  by_cases hp : 98000 < le32 [resp 40, resp 41, resp 42, resp 43]
  · simp only [gt_iff_lt, if_pos hp, except_bind_ok] at hok
    by_cases hcs : (rawBins16 resp).sum &&& 0xFFFF = u16 (resp 48) (resp 49)
    · rw [if_neg (not_not_intro hcs)] at hok
      cases nc with
      | false =>
        simp only [Bool.false_eq_true, if_false] at hok
        obtain hS := Option.some.inj (Except.ok.inj hok)
        subst hS
        refine ⟨⟨fun _ => ⟨rfl, rfl⟩, fun hnp _ => absurd hp hnp, fun hnp _ => absurd hp hnp⟩,
          rfl, rfl, rfl, hcs⟩
      | true =>
        simp only [if_true] at hok
        cases hdb : divideBins (PyFloat.mul (float32FromBytes (resp 36) (resp 37) (resp 38) (resp 39)) (float32FromBytes (resp 44) (resp 45) (resp 46) (resp 47))) (rawBins16 resp) with
        | error e => rw [hdb] at hok; simp at hok
        | ok bs =>
          rw [hdb] at hok
          simp only [except_bind_ok] at hok
          obtain hS := Option.some.inj (Except.ok.inj hok)
          subst hS
          refine ⟨⟨fun _ => ⟨rfl, rfl⟩, fun hnp _ => absurd hp hnp, fun hnp _ => absurd hp hnp⟩,
            rfl, rfl, rfl, hcs⟩
    · rw [if_pos hcs] at hok
      simp at hok
  · simp only [gt_iff_lt, if_neg hp, except_bind_ok] at hok
    by_cases ht : le32 [resp 40, resp 41, resp 42, resp 43] < 500
    · simp only [if_pos ht, except_bind_ok] at hok
      by_cases hcs : (rawBins16 resp).sum &&& 0xFFFF = u16 (resp 48) (resp 49)
      · rw [if_neg (not_not_intro hcs)] at hok
        cases nc with
        | false =>
          simp only [Bool.false_eq_true, if_false] at hok
          obtain hS := Option.some.inj (Except.ok.inj hok)
          subst hS
          refine ⟨⟨fun hpp => absurd hpp hp, fun _ _ => ⟨rfl, rfl⟩, fun _ hnt => absurd ht hnt⟩,
            rfl, rfl, rfl, hcs⟩
        | true =>
          simp only [if_true] at hok
          cases hdb : divideBins (PyFloat.mul (float32FromBytes (resp 36) (resp 37) (resp 38) (resp 39)) (float32FromBytes (resp 44) (resp 45) (resp 46) (resp 47))) (rawBins16 resp) with
          | error e => rw [hdb] at hok; simp at hok
          | ok bs =>
            rw [hdb] at hok
            simp only [except_bind_ok] at hok
            obtain hS := Option.some.inj (Except.ok.inj hok)
            subst hS
            refine ⟨⟨fun hpp => absurd hpp hp, fun _ _ => ⟨rfl, rfl⟩, fun _ hnt => absurd ht hnt⟩,
              rfl, rfl, rfl, hcs⟩
      · rw [if_pos hcs] at hok
        simp at hok
    · simp only [if_neg ht, except_bind_ok] at hok
      by_cases hcs : (rawBins16 resp).sum &&& 0xFFFF = u16 (resp 48) (resp 49)
      · rw [if_neg (not_not_intro hcs)] at hok
        cases nc with
        | false =>
          simp only [Bool.false_eq_true, if_false] at hok
          obtain hS := Option.some.inj (Except.ok.inj hok)
          subst hS
          refine ⟨⟨fun hpp => absurd hpp hp, fun _ hht => absurd hht ht, fun _ _ => ⟨rfl, rfl⟩⟩,
            rfl, rfl, rfl, hcs⟩
        | true =>
          simp only [if_true] at hok
          cases hdb : divideBins (PyFloat.mul (float32FromBytes (resp 36) (resp 37) (resp 38) (resp 39)) (float32FromBytes (resp 44) (resp 45) (resp 46) (resp 47))) (rawBins16 resp) with
          | error e => rw [hdb] at hok; simp at hok
          | ok bs =>
            rw [hdb] at hok
            simp only [except_bind_ok] at hok
            obtain hS := Option.some.inj (Except.ok.inj hok)
            subst hS
            refine ⟨⟨fun hpp => absurd hpp hp, fun _ hht => absurd hht ht, fun _ _ => ⟨rfl, rfl⟩⟩,
              rfl, rfl, rfl, hcs⟩
      · rw [if_pos hcs] at hok
        simp at hok

/-- Dividing the bins by an exactly-zero divisor raises at the first bin. -/
theorem divideBins_zero_cons (b : ℕ) (rest : List ℕ) :
    divideBins (PyFloat.fin 0) (b :: rest) = Except.error PyErr.zeroDivision := by
  simp [divideBins, pyDivNat]

/-- Dividing the N3 bins by an exactly-zero divisor raises at the first bin. -/
theorem divideBinsQ_zero_cons (b : ℕ) (rest : List ℕ) :
    divideBinsQ 0 (b :: rest) = Except.error PyErr.zeroDivision := by
  simp [divideBinsQ, pyDivQ]

/-- The sixteen N2 bin divisions abort on a zero divisor. -/
theorem divideBins_zero_rawBins16 (resp : Fin 62 → ℕ) :
    divideBins (PyFloat.fin 0) (rawBins16 resp) = Except.error PyErr.zeroDivision :=
  divideBins_zero_cons _ _

/-- The twenty-four N3 bin divisions abort on a zero divisor. -/
theorem divideBinsQ_zero_rawBins24 (resp : Fin 86 → ℕ) :
    divideBinsQ 0 (rawBins24 resp) = Except.error PyErr.zeroDivision :=
  divideBinsQ_zero_cons _ _

/-- With number_concentration off, the N3 decode is total: it returns
the record built from the frame fields, checksum mismatch or not. -/
theorem opcn3Histogram_false_eq (resp : Fin 86 → ℕ) :
    opcn3Histogram false resp = Except.ok {
      bins := (rawBins24 resp).map (fun b => (b : ℚ)),
      bin1MToF := calculate_mtof (resp 48),
      bin3MToF := calculate_mtof (resp 49),
      bin5MToF := calculate_mtof (resp 50),
      bin7MToF := calculate_mtof (resp 51),
      samplingPeriod := calculate_period_uint (resp 52) (resp 53),
      sampleFlowRate := calculate_flowrate (resp 54) (resp 55),
      temperature := calculate_temp_uint (resp 56) (resp 57),
      relativeHumidity := calculate_hum_uint (resp 58) (resp 59),
      pm1 := calculate_float [resp 60, resp 61, resp 62, resp 63],
      pm25 := calculate_float [resp 64, resp 65, resp 66, resp 67],
      pm10 := calculate_float [resp 68, resp 69, resp 70, resp 71],
      rejectGlitch := u16 (resp 72) (resp 73),
      rejectLongTOF := u16 (resp 74) (resp 75),
      rejectRatioCnt := u16 (resp 76) (resp 77),
      rejectOutOfRange := u16 (resp 78) (resp 79),
      fanRevCount := u16 (resp 80) (resp 81),
      laserStatus := u16 (resp 82) (resp 83),
      checksum := u16 (resp 84) (resp 85) } := rfl

/-- Any successful N3 decode stores the u16-derived sampling period. -/
theorem opcn3Histogram_period (nc : Bool) (resp : Fin 86 → ℕ) (h : HistN3)
    (hok : opcn3Histogram nc resp = Except.ok h) :
    h.samplingPeriod = calculate_period_uint (resp 52) (resp 53) := by
  cases nc with
  | false =>
    rw [opcn3Histogram_false_eq] at hok
    obtain hS := Except.ok.inj hok
    subst hS
    rfl
  | true =>
    unfold opcn3Histogram at hok
    simp only [if_true] at hok
    cases hdb : divideBinsQ (calculate_flowrate (resp 54) (resp 55) * calculate_period_uint (resp 52) (resp 53)) (rawBins24 resp) with
    | error e => rw [hdb] at hok; simp at hok
    | ok bs =>
      rw [hdb] at hok
      simp only [except_bind_ok, except_pure_eq_ok] at hok
      obtain hS := Except.ok.inj hok
      subst hS
      rfl

/-- The all-zero 62-byte N2 frame. -/
def zeroFrameN2 : Fin 62 → ℕ := fun _ => 0

/-- A 62-byte N2 frame whose first bin count is 1 while the checksum
field is 0, so the checksum comparison fails. -/
def badFrameN2 : Fin 62 → ℕ := fun i => if i = 0 then 1 else 0

/-- An 86-byte N3 frame whose first bin count is 1 while the checksum
field is 0, so the checksum comparison fails. -/
def badFrameN3 : Fin 86 → ℕ := fun i => if i = 0 then 1 else 0

/-- A 62-byte N2 frame whose SFR slice resp[36:40] holds the quiet-NaN
bit pattern 0x7FC00000 and whose bins and checksum are zero. -/
def nanFrame : Fin 62 → ℕ := fun i => if i = 38 then 192 else if i = 39 then 127 else 0

/-- An 86-byte N3 frame whose sampling-period low byte resp[52] is 1. -/
def periodFrameN3 : Fin 86 → ℕ := fun i => if i = 52 then 1 else 0

/-- The record decoded from the all-zero N2 frame under firmware 18 with
number concentration off. -/
def zeroHistN2 : HistN2 where
  bins := List.replicate 16 (PyFloat.fin 0)
  bin1MToF := 0
  bin3MToF := 0
  bin5MToF := 0
  bin7MToF := 0
  sfr := some (PyFloat.fin 0)
  temperature := some 0
  pressure := none
  samplingPeriod := some (PyFloat.fin 0)
  checksum := 0
  pm1 := some (PyFloat.fin 0)
  pm25 := some (PyFloat.fin 0)
  pm10 := some (PyFloat.fin 0)

theorem opcn2_zero_frame_eval :
    opcn2Histogram 18 false zeroFrameN2 = Except.ok (some zeroHistN2) := by
  simp only [opcn2Histogram, zeroFrameN2, zeroHistN2, rawBins16, u16, le32, float32FromBytes,
    calculate_mtof, calculate_float_four, calculate_temp_four, calculate_pressure_four,
    except_pure_eq_ok, except_bind_ok, except_throw_eq,
    Nat.reduceShiftLeft, Nat.reduceOr, Nat.reduceAnd, Nat.reduceDiv, Nat.reduceMod,
    Nat.reduceAdd, Nat.reduceMul, Nat.reducePow, Nat.reduceEqDiff, Nat.reduceLT,
    Nat.reduceGT, Nat.reduceSub, List.getD, show ¬(18 : ℚ) < 16 by norm_num]
  norm_num [List.replicate]

/-- The temperature/pressure pair of a decoded N2 reading, when one was
returned. -/
def histN2TempPres (r : Except PyErr (Option HistN2)) : Option (Option ℕ × Option ℕ) :=
  match r with
  | .ok (some h) => some (h.temperature, h.pressure)
  | _ => none

/-- The first bin of a decoded N2 reading, when one was returned. -/
def histN2FirstBin (r : Except PyErr (Option HistN2)) : Option PyFloat :=
  match r with
  | .ok (some h) => h.bins.head?
  | _ => none

/-- The sampling period of a decoded N3 reading, when one was returned. -/
def histN3Period (r : Except PyErr HistN3) : Option ℚ :=
  match r with
  | .ok h => some h.samplingPeriod
  | _ => none

/-- The first bin of a decoded N3 reading, when one was returned. -/
def histN3FirstBin (r : Except PyErr HistN3) : Option ℚ :=
  match r with
  | .ok h => h.bins.head?
  | _ => none


/-- C1 (amended): only OPCN2.histogram enforces the checksum, returning
None and discarding the reading on a mismatch; OPCN3.histogram only logs
a warning and (shown here with number concentration off) always returns
the decoded record, garbled or not; OPCN1.read_histogram never reaches a
checksum comparison because its sampling-period decode raises TypeError
on every frame. -/
theorem histogram_checksum_policy :
    (∀ (fw : ℚ) (nc : Bool) (resp : Fin 62 → ℕ), 16 ≤ fw →
      (rawBins16 resp).sum &&& 0xFFFF ≠ u16 (resp 48) (resp 49) →
      opcn2Histogram fw nc resp = Except.ok none) ∧
    (∀ resp : Fin 86 → ℕ, (opcn3Histogram false resp).isOk = true) ∧
    (∀ resp : Fin 62 → ℕ, opcn1ReadHistogram resp = Except.error PyErr.typeError) := by
  refine ⟨?_, ?_, ?_⟩
  · intro fw nc resp hfw hcs
    unfold opcn2Histogram
    rw [if_neg (not_lt.mpr hfw)]
    simp only [calculate_pressure_four, calculate_temp_four, calculate_float_four,
      except_bind_ok, except_pure_eq_ok, except_throw_eq]
    by_cases hp : 98000 < le32 [resp 40, resp 41, resp 42, resp 43]
    · simp only [gt_iff_lt, if_pos hp, except_bind_ok, if_pos hcs]
    · simp only [gt_iff_lt, if_neg hp, except_bind_ok]
      by_cases ht : le32 [resp 40, resp 41, resp 42, resp 43] < 500
      · simp only [if_pos ht, except_bind_ok, if_pos hcs]
      · simp only [if_neg ht, except_bind_ok, if_pos hcs]
  · intro resp
    rw [opcn3Histogram_false_eq]
    rfl
  · intro resp
    simp [opcn1ReadHistogram]

/-- C1 counterexample: an N3 frame whose bin sum is 1 but whose checksum
field is 0 fails the integrity check, yet OPCN3.histogram still returns
the garbled reading (first bin 1) instead of discarding it. -/
theorem n3_checksum_mismatch_returned :
    (rawBins24 badFrameN3).sum &&& 0xFFFF ≠ u16 (badFrameN3 84) (badFrameN3 85) ∧
    (opcn3Histogram false badFrameN3).isOk = true ∧
    histN3FirstBin (opcn3Histogram false badFrameN3) = some 1 := by
  refine ⟨by decide, by rw [opcn3Histogram_false_eq]; rfl, ?_⟩
  rw [opcn3Histogram_false_eq]
  simp [histN3FirstBin, rawBins24, badFrameN3, u16]

/-- C1 witness: a mismatched N2 frame is discarded as None, the N3
decoder returns a record on the all-zero frame, and the N1 decoder
raises TypeError on the all-zero frame. -/
theorem histogram_checksum_policy_witness :
    opcn2Histogram 18 false badFrameN2 = Except.ok none ∧
    (opcn3Histogram false (fun _ => 0)).isOk = true ∧
    opcn1ReadHistogram (fun _ => 0) = Except.error PyErr.typeError :=
  ⟨histogram_checksum_policy.1 18 false badFrameN2 (by norm_num) (by decide),
   histogram_checksum_policy.2.1 (fun _ => 0),
   histogram_checksum_policy.2.2 (fun _ => 0)⟩

/-- C2: on every N2 frame decoded under firmware 16 or later that yields
a reading, the ambiguous slice resp[40:44] is disambiguated exactly as
specified: if its decoding as pressure exceeds 98000 the reading carries
that pressure and no temperature; otherwise the same bytes are decoded
as temperature, and below 500 the reading carries that temperature and
no pressure; otherwise both are unknown. -/
theorem n2_temp_pressure_disambiguation (fw : ℚ) (nc : Bool) (resp : Fin 62 → ℕ)
    (h : HistN2) (praw traw : ℕ)
    (hfw : 16 ≤ fw)
    (hok : opcn2Histogram fw nc resp = Except.ok (some h))
    (hpdec : calculate_pressure [resp 40, resp 41, resp 42, resp 43] = some praw)
    (htdec : calculate_temp [resp 40, resp 41, resp 42, resp 43] = some traw) :
    (98000 < praw → h.pressure = some praw ∧ h.temperature = none) ∧
    (¬ 98000 < praw → traw < 500 → h.temperature = some traw ∧ h.pressure = none) ∧
    (¬ 98000 < praw → ¬ traw < 500 → h.temperature = none ∧ h.pressure = none) := by
  rw [calculate_pressure_four] at hpdec
  rw [calculate_temp_four] at htdec
  obtain hpraw := Option.some.inj hpdec
  obtain htraw := Option.some.inj htdec
  subst hpraw
  subst htraw
  obtain ⟨htri, _⟩ := opcn2Histogram_fields fw nc resp h hfw hok
  exact ⟨fun hp => ⟨(htri.1 hp).2, (htri.1 hp).1⟩,
    fun hnp hlt => htri.2.1 hnp hlt,
    fun hnp hge => htri.2.2 hnp hge⟩

/-- C2 witness: the all-zero frame decodes (pressure reading 0 is not
above 98000, temperature reading 0 is below 500) to a record carrying
Temperature 0 and no Pressure. -/
theorem n2_temp_pressure_disambiguation_witness :
    zeroHistN2.temperature = some 0 ∧ zeroHistN2.pressure = none := by
  have hmain := n2_temp_pressure_disambiguation 18 false zeroFrameN2 zeroHistN2 0 0
    (by norm_num) opcn2_zero_frame_eval (by decide) (by decide)
  exact hmain.2.1 (by decide) (by decide)

/-- C3 (amended): the N2 decoder selects the sampling-period formula by
firmware version, but with these outcomes: under firmware 16 or later
the stored period is the IEEE-754 float decode of resp[44:48]; under
firmware below 16 the decode raises TypeError, because _calculate_period
compares the firmware dict with the int 16 (so the documented
integer/12e6 formula is unreachable, as is any decode under that
branch); and the N3 decoder stores the 16-bit integer at resp[52:54]
divided by 100, not an IEEE-754 float. -/
theorem sampling_period_decoding :
    (∀ (fw : ℚ) (nc : Bool) (resp : Fin 62 → ℕ) (h : HistN2), 16 ≤ fw →
      opcn2Histogram fw nc resp = Except.ok (some h) →
      h.samplingPeriod = calculate_float [resp 44, resp 45, resp 46, resp 47]) ∧
    (∀ (fw : ℚ) (nc : Bool) (resp : Fin 62 → ℕ), fw < 16 →
      opcn2Histogram fw nc resp = Except.error PyErr.typeError) ∧
    (∀ vals : List ℕ, vals.length = 4 →
      calculate_period vals = Except.error PyErr.typeError) ∧
    (∀ (nc : Bool) (resp : Fin 86 → ℕ) (h : HistN3),
      opcn3Histogram nc resp = Except.ok h →
      h.samplingPeriod = calculate_period_uint (resp 52) (resp 53)) := by
  refine ⟨?_, ?_, ?_, ?_⟩
  · intro fw nc resp h hfw hok
    exact (opcn2Histogram_fields fw nc resp h hfw hok).2.1
  · intro fw nc resp hfw
    exact opcn2Histogram_lt16 fw nc resp hfw
  · intro vals hlen
    unfold calculate_period
    rw [if_neg (by omega)]
  · intro nc resp h hok
    exact opcn3Histogram_period nc resp h hok

/-- C3 counterexample: an N3 frame with sampling-period bytes (1, 0) and
zeros elsewhere decodes to the sampling period 1/100 (the u16 value 1
divided by 100), whereas the IEEE-754 float decoding of the same window
resp[52:56] = (1, 0, 0, 0) is the subnormal 1/2^149, a different value —
so on the N3 the sampling period is not the float decoding the claim
prescribes. -/
theorem n3_period_not_ieee_float :
    histN3Period (opcn3Histogram false periodFrameN3) = some (1 / 100) ∧
    float32FromBytes (periodFrameN3 52) (periodFrameN3 53) (periodFrameN3 54) (periodFrameN3 55) =
      PyFloat.fin (1 / 2 ^ 149) ∧
    (1 : ℚ) / 100 ≠ 1 / 2 ^ 149 := by
  refine ⟨?_, ?_, by norm_num⟩
  · rw [opcn3Histogram_false_eq]
    simp [histN3Period, periodFrameN3, calculate_period_uint, u16]
  · simp only [periodFrameN3, float32FromBytes, Fin.isValue, Fin.reduceEq, if_true, if_false,
      ite_true, ite_false, Nat.reduceShiftLeft, Nat.reduceOr, Nat.reduceDiv, Nat.reduceMod,
      Nat.reduceEqDiff, Nat.reduceAdd, Nat.reducePow]
    norm_num

/-- C3 witness, at concrete frames: a firmware-18 N2 decode stores the
float decode of the period slice, a firmware-14 N2 decode raises
TypeError, _calculate_period raises TypeError on a four-byte slice, and
an N3 decode stores the u16-derived period. -/
theorem sampling_period_decoding_witness :
    zeroHistN2.samplingPeriod = calculate_float [0, 0, 0, 0] ∧
    opcn2Histogram 14 false zeroFrameN2 = Except.error PyErr.typeError ∧
    calculate_period [0, 0, 0, 0] = Except.error PyErr.typeError ∧
    histN3Period (opcn3Histogram false (fun _ => 0)) = some (calculate_period_uint 0 0) := by
  refine ⟨?_, ?_, ?_, ?_⟩
  · have := sampling_period_decoding.1 18 false zeroFrameN2 zeroHistN2 (by norm_num)
      opcn2_zero_frame_eval
    exact this
  · exact sampling_period_decoding.2.1 14 false zeroFrameN2 (by norm_num)
  · exact sampling_period_decoding.2.2.1 [0, 0, 0, 0] (by decide)
  · have := sampling_period_decoding.2.2.2 false (fun _ => 0) _ (opcn3Histogram_false_eq (fun _ => 0))
    rw [opcn3Histogram_false_eq]
    simp only [histN3Period, this]

/-- C8 (amended): when the number-concentration divisor is exactly zero
the per-bin division raises ZeroDivisionError and no reading is produced
(on the N2 a prior checksum mismatch can instead discard the reading as
None; the N3 has no discard path).  However a NaN divisor is not covered:
see the counterexample. -/
theorem zero_divisor_aborts_histogram :
    (∀ (fw : ℚ) (resp : Fin 62 → ℕ), 16 ≤ fw →
      PyFloat.mul (float32FromBytes (resp 36) (resp 37) (resp 38) (resp 39))
          (float32FromBytes (resp 44) (resp 45) (resp 46) (resp 47)) = PyFloat.fin 0 →
      opcn2Histogram fw true resp = Except.ok none ∨
        opcn2Histogram fw true resp = Except.error PyErr.zeroDivision) ∧
    (∀ resp : Fin 86 → ℕ,
      calculate_flowrate (resp 54) (resp 55) * calculate_period_uint (resp 52) (resp 53) = 0 →
      opcn3Histogram true resp = Except.error PyErr.zeroDivision) := by
  constructor
  · intro fw resp hfw hconv
    unfold opcn2Histogram
    rw [if_neg (not_lt.mpr hfw)]
    simp only [calculate_pressure_four, calculate_temp_four, calculate_float_four,
      except_bind_ok, except_pure_eq_ok, except_throw_eq]
    by_cases hcs : (rawBins16 resp).sum &&& 0xFFFF = u16 (resp 48) (resp 49)
    · right
      by_cases hp : 98000 < le32 [resp 40, resp 41, resp 42, resp 43]
      · simp only [gt_iff_lt, if_pos hp, except_bind_ok, if_neg (not_not_intro hcs), if_true,
          hconv, divideBins_zero_rawBins16, except_bind_error]
      · by_cases ht : le32 [resp 40, resp 41, resp 42, resp 43] < 500
        · simp only [gt_iff_lt, if_neg hp, if_pos ht, except_bind_ok,
            if_neg (not_not_intro hcs), if_true, hconv, divideBins_zero_rawBins16,
            except_bind_error]
        · simp only [gt_iff_lt, if_neg hp, if_neg ht, except_bind_ok,
            if_neg (not_not_intro hcs), if_true, hconv, divideBins_zero_rawBins16,
            except_bind_error]
    · left
      by_cases hp : 98000 < le32 [resp 40, resp 41, resp 42, resp 43]
      · simp only [gt_iff_lt, if_pos hp, except_bind_ok, if_pos hcs]
      · by_cases ht : le32 [resp 40, resp 41, resp 42, resp 43] < 500
        · simp only [gt_iff_lt, if_neg hp, if_pos ht, except_bind_ok, if_pos hcs]
        · simp only [gt_iff_lt, if_neg hp, if_neg ht, except_bind_ok, if_pos hcs]
  · intro resp hconv
    unfold opcn3Histogram
    simp only [if_true, hconv, divideBinsQ_zero_rawBins24, except_bind_error]

/-- C8 counterexample: the N2 frame whose SFR slice holds a NaN bit
pattern passes the checksum (all bins zero) and the NaN divisor does not
raise: the decode returns a reading whose first bin is NaN, so a reading
with NaN bins can reach the caller. -/
theorem nan_divisor_returns_nan_bins :
    calculate_float [nanFrame 36, nanFrame 37, nanFrame 38, nanFrame 39] = some PyFloat.nan ∧
    histN2FirstBin (opcn2Histogram 18 true nanFrame) = some PyFloat.nan := by
  constructor
  · rfl
  · simp only [opcn2Histogram, histN2FirstBin, nanFrame, rawBins16, u16, le32, float32FromBytes,
      calculate_mtof, divideBins, pyDivNat, PyFloat.mul, calculate_float_four,
      calculate_temp_four, calculate_pressure_four,
      except_pure_eq_ok, except_bind_ok, except_bind_error, except_throw_eq,
      Fin.isValue, Fin.reduceEq, List.getD, ite_true, ite_false, reduceIte,
      Nat.reduceShiftLeft, Nat.reduceOr, Nat.reduceAnd, Nat.reduceDiv, Nat.reduceMod,
      Nat.reduceAdd, Nat.reduceMul, Nat.reducePow, Nat.reduceEqDiff, Nat.reduceLT,
      Nat.reduceGT, Nat.reduceSub]
    norm_num

/-- C8 witness: the all-zero frames give an exactly-zero divisor on both
models; the N2 read is discarded or aborted by ZeroDivisionError, and
the N3 read raises ZeroDivisionError. -/
theorem zero_divisor_aborts_histogram_witness :
    (opcn2Histogram 18 true zeroFrameN2 = Except.ok none ∨
      opcn2Histogram 18 true zeroFrameN2 = Except.error PyErr.zeroDivision) ∧
    opcn3Histogram true (fun _ => 0) = Except.error PyErr.zeroDivision :=
  ⟨zero_divisor_aborts_histogram.1 18 zeroFrameN2 (by norm_num)
      (by simp [zeroFrameN2, float32FromBytes, PyFloat.mul]),
   zero_divisor_aborts_histogram.2 (fun _ => 0)
      (by simp [calculate_flowrate, calculate_period_uint, u16])⟩

end PyOpc
